import Mathlib

/-!
Verification of the ulauncher fw-fanctrl extension (`main.py`) against its
natural-language specification.

The development shallowly embeds the extension logic: parsed JSON values
become an inductive `Json` type, the external `fw-fanctrl` process is an
oracle mapping each command to an outcome, and each Python method becomes a
Lean function threading the cached snapshot (`self.state`) explicitly and
returning the list of external commands it attempted plus its result.
Unhandled Python exceptions are modelled with `Except PyExn`.

Notes on the embedding:
* JSON numbers are carried as their literal text (`Json.num lit`): no claim
  computes with numeric values, and this avoids floating point.
* `json.loads` itself is not re-implemented; the oracle hands back either a
  decode failure (carrying the exception text) or a parsed `Json` value.
  Objects produced by `json.loads` have pairwise distinct keys.
* Case folding (`re.IGNORECASE`) and `str.title` are modelled for ASCII via
  `Char.toLower` and `Char.toUpper`; since Python also folds non-ASCII case
  pairs, the fuzzy-filter theorem carries explicit ASCII hypotheses on the
  query and the candidate keywords and asserts nothing outside that scope.
* `sorted` on fuzzyfinder suggestion tuples raises `TypeError` whenever two
  suggestions agree on the whole `(length, start, text)` key (it falls
  through to comparing the item objects); the model reproduces that error
  path.
-/

/-- A parsed JSON value, as returned by `json.loads`. Numbers keep their
literal source text since the program never computes with them. -/
inductive Json where
  | null : Json
  | bool (b : Bool) : Json
  | num (lit : String) : Json
  | str (s : String) : Json
  | arr (elems : List Json) : Json
  | obj (fields : List (String × Json)) : Json

/-- Python truthiness of a JSON number literal: falsy exactly when every
mantissa digit (before any exponent marker) is zero, i.e. the value is 0. -/
def numLitTruthy (lit : String) : Bool :=
  (lit.toList.takeWhile (fun c => c != 'e' && c != 'E')).any
    (fun c => c.isDigit && c != '0')

/-- Python truthiness (`bool(v)`) of a parsed JSON value. -/
def Json.truthy : Json → Bool
  | .null => false
  | .bool b => b
  | .num lit => numLitTruthy lit
  | .str s => !s.isEmpty
  | .arr xs => !xs.isEmpty
  | .obj fs => !fs.isEmpty

/-- Python `str(v)` of a parsed JSON value, used only inside the toggle
description f-string. Container reprs are abstracted: no claim inspects
that description text. -/
def pyStr : Json → String
  | .null => "None"
  | .bool b => if b then "True" else "False"
  | .num lit => lit
  | .str s => s
  | .arr _ => "[list]"
  | .obj _ => "[dict]"

/-- Python exceptions that `main.py` can let escape (they are not caught by
any of its `except` clauses). -/
inductive PyExn where
  | keyError (k : String)
  | typeError (msg : String)
  | attributeError (msg : String)
  | fileNotFoundError
deriving DecidableEq

/-- Python subscripting `v[k]` with a string key: a `KeyError` on an object
missing the key, a `TypeError` on non-subscriptable or non-string-keyed
values. `json.loads` objects have distinct keys, so first-match lookup
agrees with `dict` lookup. -/
def pyIndex (v : Json) (k : String) : Except PyExn Json :=
  match v with
  | .obj fs =>
    match fs.lookup k with
    | some x => .ok x
    | none => .error (.keyError k)
  | .arr _ => .error (.typeError "list indices must be integers or slices, not str")
  | .str _ => .error (.typeError "string indices must be integers")
  | _ => .error (.typeError "object is not subscriptable")

/-- Python `list(v.keys())`: the key list of a dict (insertion order), an
`AttributeError` on anything else. -/
def pyKeys (v : Json) : Except PyExn (List String) :=
  match v with
  | .obj fs => .ok (fs.map (fun f => f.1))
  | _ => .error (.attributeError "object has no attribute keys")

/-- The `State` TypedDict (`main.py` lines 15-20). TypedDict annotations are
not enforced at runtime, so every field except `strategies` holds whatever
JSON value the tool printed; `strategies` holds `list(....keys())`. -/
structure State where
  strategy : Json
  active : Json
  speed : Json
  temperature : Json
  strategies : List String

/-- Result of `json.loads(result.stdout)`: either a `JSONDecodeError`
(carrying `str(e)`) or the parsed value. -/
inductive LoadsResult where
  | decodeError (msg : String) : LoadsResult
  | json (v : Json) : LoadsResult

/-- Outcome of one `subprocess.run(..., check=True)` call: normal exit with
captured stdout, `CalledProcessError` (carrying `str(e)`), or
`FileNotFoundError` for a missing binary. -/
inductive CmdOutcome where
  | ok (out : LoadsResult) : CmdOutcome
  | failed (msg : String) : CmdOutcome
  | notFound : CmdOutcome

/-- The external commands `main.py` can invoke. -/
inductive Cmd where
  | printAll : Cmd
  | pause : Cmd
  | resume : Cmd
  | use (strategy : String) : Cmd
deriving DecidableEq

/-- The external world: what each `fw-fanctrl` invocation would produce.
Within a single event at most one invocation of each command happens, so a
fixed assignment is faithful. -/
def World : Type := Cmd → CmdOutcome

/-- Building the snapshot dict (`main.py` lines 68-74): the five entries are
evaluated in source order, and the first failing subscript raises. -/
def parseState (data : Json) : Except PyExn State := do
  let strategy ← pyIndex data "strategy"
  let active ← pyIndex data "active"
  let speed ← pyIndex data "speed"
  let temperature ← pyIndex data "temperature"
  let config ← pyIndex data "configuration"
  let cdata ← pyIndex config "data"
  let strats ← pyIndex cdata "strategies"
  let keys ← pyKeys strats
  .ok { strategy := strategy, active := active, speed := speed,
        temperature := temperature, strategies := keys }

/-- What one call of `refresh_state` (lines 57-81) does, as a function of the
print command outcome: set the state and return `None`; keep the state and
return an error string; or raise an uncaught exception. -/
inductive RefreshOutcome where
  | ok (s : State) : RefreshOutcome
  | err (msg : String) : RefreshOutcome
  | crash (e : PyExn) : RefreshOutcome

/-- `FwFanctrlExtension.refresh_state` (lines 57-81), given the outcome of
`subprocess.run(["fw-fanctrl", "--output-format=JSON", "print", "all"], ...)`.
Only `CalledProcessError`, `JSONDecodeError` and `FileNotFoundError` are
caught; exceptions raised while building the dict escape. -/
def refresh_state (res : CmdOutcome) : RefreshOutcome :=
  match res with
  | .failed msg => .err ("fw-fanctrl command failed: " ++ msg)
  | .notFound => .err "fw-fanctrl command not found. Please ensure it's installed and in PATH."
  | .ok (.decodeError msg) => .err ("Failed to parse fw-fanctrl output: " ++ msg)
  | .ok (.json data) =>
    match parseState data with
    | .ok s => .ok s
    | .error e => .crash e

/-- `refresh_state` as a state transformer on `self.state`: the returned
triple is the new `self.state`, the attempted external commands, and the
method result (the error string or `None`) or an escaped exception. -/
def refreshEff (w : World) (st : Option State) :
    Option State × List Cmd × Except PyExn (Option String) :=
  match refresh_state (w .printAll) with
  | .ok s => (some s, [.printAll], .ok none)
  | .err m => (st, [.printAll], .ok (some m))
  | .crash e => (st, [.printAll], .error e)

/-- Lowercasing used to model `re.IGNORECASE`. `Char.toLower` folds ASCII
only, while Python folds Unicode case pairs as well, so this models the
regex flag faithfully only on ASCII strings; the fuzzy-filter claim
theorem therefore carries explicit ASCII hypotheses on the query and the
candidate keywords, and asserts nothing beyond that scope. -/
def lc (c : Char) : Char := c.toLower

/-- `s` consists of ASCII characters only. Within ASCII, Python
`re.IGNORECASE` matching of two characters coincides with equality of
their `Char.toLower` images (no cross-matching with non-ASCII case pairs
can occur when both sides are ASCII). -/
def asciiStr (s : String) : Bool := s.toList.all (fun c => c.toNat < 128)

/-- Case-insensitive character comparison. -/
def ciEq (c d : Char) : Bool := lc c == lc d

/-- Number of text characters consumed when embedding the pattern characters
`q` into the text greedily at their earliest occurrences. This is exactly
how the non-greedy regex `q0.*?q1...qn` continues after its first
character, and the greedy-earliest embedding is the shortest one. -/
def embedLen : List Char → List Char → Option Nat
  | [], _ => some 0
  | _ :: _, [] => none
  | c :: q, d :: t =>
    if ciEq c d then (embedLen q t).map (· + 1)
    else (embedLen (c :: q) t).map (· + 1)

/-- Length of the match of the fuzzyfinder regex `q0.*?q1...qn` that starts
exactly at the head of the text, if any: the first text character must be
`q0` and the remaining pattern characters embed greedily afterwards. -/
def matchLenAt : List Char → List Char → Option Nat
  | [], _ => some 0
  | _ :: _, [] => none
  | c :: q, d :: t => if ciEq c d then (embedLen q t).map (· + 1) else none

/-- All matches `regex.finditer` finds for the lookahead-wrapped pattern:
one `(start, length)` pair per position where a match begins, in increasing
start order (`i` is the index of the current text suffix). -/
def allMatchesFrom (q : List Char) : List Char → Nat → List (Nat × Nat)
  | [], i =>
    match matchLenAt q [] with
    | some n => [(i, n)]
    | none => []
  | d :: t, i =>
    (match matchLenAt q (d :: t) with
     | some n => [(i, n)]
     | none => []) ++ allMatchesFrom q t (i + 1)

/-- `min(r, key=lambda x: len(x.group(1)))`: the first entry with minimal
match length (entries are `(start, length)`). -/
def bestMatch : List (Nat × Nat) → Option (Nat × Nat)
  | [] => none
  | m :: ms => some (ms.foldl (fun best x => if x.2 < best.2 then x else best) m)

/-- The fuzzyfinder score of one candidate string: `none` when the regex has
no match, otherwise `(length of the best match, its start position)`. -/
def fuzzyScore (q s : String) : Option (Nat × Nat) :=
  (bestMatch (allMatchesFrom q.toList s.toList 0)).map (fun m => (m.2, m.1))

/-- The suggestion tuples fuzzyfinder accumulates:
`(len(best.group(1)), best.start(), accessor(item), item)`. -/
def fuzzySuggestions {α : Type} (q : String) (items : List α) (acc : α → String) :
    List (Nat × Nat × String × α) :=
  items.filterMap (fun it =>
    (fuzzyScore q (acc it)).map (fun p => (p.1, p.2, acc it, it)))

/-- Sort key of a suggestion tuple: lexicographic on
(match length, match start, accessor text), which is how Python compares
the 4-tuples (the item component is only reached on a full tie). -/
def sugKey {α : Type} (s : Nat × Nat × String × α) : Lex (Nat × Lex (Nat × String)) :=
  toLex (s.1, toLex (s.2.1, s.2.2.1))

/-- The comparison `sorted` uses on suggestion tuples while no full key
tie occurs (the tie case raises `TypeError` before any order is produced;
see `fuzzyfinder`). -/
def sugLE {α : Type} (a b : Nat × Nat × String × α) : Prop := sugKey a ≤ sugKey b

instance {α : Type} : DecidableRel (@sugLE α) :=
  fun a b => inferInstanceAs (Decidable (sugKey a ≤ sugKey b))

instance {α : Type} : IsTotal (Nat × Nat × String × α) sugLE :=
  ⟨fun a b => le_total (sugKey a) (sugKey b)⟩

instance {α : Type} : IsTrans (Nat × Nat × String × α) sugLE :=
  ⟨fun _ _ _ h1 h2 => le_trans h1 h2⟩

/-- Two suggestion tuples agree on the whole `(length, start, text)` sort
key. -/
def sameKey {α : Type} (a b : Nat × Nat × String × α) : Bool :=
  a.1 == b.1 && a.2.1 == b.2.1 && a.2.2.1 == b.2.2.1

/-- Some pair of distinct positions in the suggestion list carries the same
full `(length, start, text)` key. -/
def hasKeyTie {α : Type} : List (Nat × Nat × String × α) → Bool
  | [] => false
  | x :: rest => rest.any (fun y => sameKey x y) || hasKeyTie rest

/-- `str(e)` of the exception Python raises when `sorted` falls through a
full key tie to comparing the two `ExtensionResultItem` objects, which
define no ordering. -/
def sortedTypeErrorMsg : String :=
  "'<' not supported between instances of 'ExtensionResultItem' and 'ExtensionResultItem'"

/-- The `fuzzyfinder` library function (fuzzyfinder 2.x, as imported by
`main.py` line 12 and called with its defaults `sort_results=True`,
`ignore_case=True`): keep the candidates whose accessor text matches the
subsequence regex, rank them by `(match length, match start, text)` with a
stable sort, and return the items. `sorted` compares the whole 4-tuples:
when two suggestions agree on the entire `(length, start, text)` key it
falls through to ordering the two item objects and raises `TypeError`
(distinct objects are never `==` and define no `<`). In CPython's binary
insertion sort regime (fewer than 64 suggestions, which covers any
realistic strategy list) inserting the later tied element always performs
that comparison, so sorting raises exactly when a full key tie exists;
two suggestions tie on the full key exactly when two surviving candidates
share a keyword, e.g. a strategy named "stop" next to the active toggle
entry. -/
def fuzzyfinder {α : Type} (q : String) (items : List α) (acc : α → String) :
    Except PyExn (List α) :=
  let sugg := fuzzySuggestions q items acc
  if hasKeyTie sugg then .error (.typeError sortedTypeErrorMsg)
  else .ok ((List.insertionSort sugLE sugg).map (fun s => s.2.2.2))

/-- Payload values that occur in `ExtensionCustomAction` dicts: a string or
`None`. -/
abbrev PyVal : Type := Option String

/-- The key-value payload of a selection event. -/
abbrev EventData : Type := List (String × PyVal)

/-- Python `data.get(k)`: the stored value, or `None` when absent. -/
def dget (d : EventData) (k : String) : PyVal := (List.lookup k d).join

/-- The `on_enter` actions the extension attaches to result items. -/
inductive ItemAction where
  | custom (payload : List (String × Option String)) (keepAppOpen : Bool)
  | copy (text : String)
deriving DecidableEq

/-- An `ExtensionResultItem` as built by `main.py` (fields the code passes;
`description` and `keyword` stay `none` when the constructor call omits
them). -/
structure Item where
  icon : String
  name : String
  description : Option String
  on_enter : ItemAction
  keyword : Option String
deriving DecidableEq

/-- Python `str.title()` (ASCII scope): uppercase every letter that follows
a non-letter, lowercase the rest. -/
def pyTitleGo : Bool → List Char → List Char
  | _, [] => []
  | prevAlpha, c :: cs =>
    (if c.isAlpha then (if prevAlpha then c.toLower else c.toUpper) else c)
      :: pyTitleGo c.isAlpha cs

/-- Python `s.title()`. -/
def pyTitle (s : String) : String := ⟨pyTitleGo false s.toList⟩

/-- Python `strategy == self.state["strategy"]`: a `str` compares equal only
to an equal `str`. -/
def strEqJson (s : String) (v : Json) : Bool :=
  match v with
  | .str t => s == t
  | _ => false

/-- The toggle entry (`main.py` lines 107-119). -/
def toggleItem (st : State) (query : Option String) : Item :=
  { icon := "images/" ++ (if st.active.truthy then "active" else "inactive") ++ ".png"
  , name := if st.active.truthy then "Running" else "Stopped"
  , description := some
      (if st.active.truthy then
        "Temperature: " ++ pyStr st.temperature ++ "°C Fan Speed " ++ pyStr st.speed ++ "%"
      else "Your Framework will use its default fan behaviour")
  , on_enter := .custom [("action", some "toggle-active"), ("query", query)] true
  , keyword := some (if st.active.truthy then "stop" else "start") }

/-- One strategy entry (`main.py` lines 121-129). -/
def strategyItem (st : State) (query : Option String) (strat : String) : Item :=
  { icon := "images/" ++ (if strEqJson strat st.strategy then "check" else "empty") ++ ".png"
  , name := pyTitle ((strat.replace "-" " "))
  , description := none
  , on_enter := .custom
      [("action", some "set-strategy"), ("query", query), ("strategy", some strat)] true
  , keyword := some strat }

/-- The full candidate list `all` (`main.py` lines 106-131): the toggle
entry followed by one entry per strategy in snapshot order. -/
def candidates (st : State) (query : Option String) : List Item :=
  toggleItem st query :: st.strategies.map (strategyItem st query)

/-- The accessor `lambda item: item.get_keyword()` (line 140); every
candidate carries a keyword, so the default is never read. -/
def keywordAcc (it : Item) : String := it.keyword.getD ""

/-- The body of `render` once a snapshot is held (`main.py` lines 106-144):
build the candidates, return them unfiltered when the query is falsy
(`None` or empty), otherwise fuzzy-filter them by keyword; the `TypeError`
that `fuzzyfinder`'s sort can raise escapes (`render` catches nothing). -/
def render_items (st : State) (query : Option String) : Except PyExn (List Item) :=
  let all := candidates st query
  match query with
  | none => .ok all
  | some q => if q = "" then .ok all else fuzzyfinder q all keywordAcc

/-- `FwFanctrlExtension.render_error` (lines 83-93): one item whose
selection copies the error text. -/
def render_error (error : String) : List Item :=
  [{ icon := "images/fw-fanctrl.png"
   , name := "An unexpected error occurred"
   , description := some "Press enter to copy to clipboard, good luck o7"
   , on_enter := .copy error
   , keyword := none }]

/-- `FwFanctrlExtension.refresh_and_render` (lines 95-100): refresh, render
the error on failure, otherwise render with the new snapshot. -/
def refresh_and_render (w : World) (st : Option State) (query : Option String) :
    Option State × List Cmd × Except PyExn (List Item) :=
  match refresh_state (w .printAll) with
  | .ok s => (some s, [.printAll], render_items s query)
  | .err m => (st, [.printAll], .ok (render_error m))
  | .crash e => (st, [.printAll], .error e)

/-- `FwFanctrlExtension.render` (lines 102-144): with no snapshot held it
defers to `refresh_and_render`; otherwise it renders the candidate list. -/
def render (w : World) (st : Option State) (query : Option String) :
    Option State × List Cmd × Except PyExn (List Item) :=
  match st with
  | some s => (some s, [], render_items s query)
  | none => refresh_and_render w none query

/-- `FwFanctrlExtension.handle_toggle_active_action` (lines 32-44). Only
`CalledProcessError` is caught around the mutating call, so a missing
binary there escapes as `FileNotFoundError`. -/
def handle_toggle_active_action (w : World) (st : Option State) (query : Option String) :
    Option State × List Cmd × Except PyExn (List Item) :=
  match st with
  | none => refresh_and_render w none query
  | some s =>
    let cmd := if s.active.truthy then Cmd.pause else Cmd.resume
    match w cmd with
    | .failed msg => (some s, [cmd], .ok (render_error msg))
    | .notFound => (some s, [cmd], .error .fileNotFoundError)
    | .ok _ =>
      let r := refresh_and_render w (some s) query
      (r.1, cmd :: r.2.1, r.2.2)

/-- `FwFanctrlExtension.handle_set_strategy_action` (lines 46-55). The
`strategy` argument arrives from `data.get("strategy")`, so it can be
`None`, in which case `subprocess.run` raises `TypeError` before invoking
anything. -/
def handle_set_strategy_action (w : World) (st : Option State) (query : Option String)
    (strategy : Option String) : Option State × List Cmd × Except PyExn (List Item) :=
  match st with
  | none => refresh_and_render w none query
  | some s =>
    match strategy with
    | none =>
      (some s, [], .error (.typeError "expected str, bytes or os.PathLike object, not NoneType"))
    | some strat =>
      match w (.use strat) with
      | .failed msg => (some s, [.use strat], .ok (render_error msg))
      | .notFound => (some s, [.use strat], .error .fileNotFoundError)
      | .ok _ =>
        let r := refresh_and_render w (some s) query
        (r.1, .use strat :: r.2.1, r.2.2)

/-- What an event listener hands back to ulauncher. -/
inductive UiAction where
  | renderList (items : List Item)
  | doNothing

/-- `ItemEnterEventListener.on_event` (lines 165-175): dispatch on the
payload's `action` value; anything else is a `DoNothingAction`. -/
def ItemEnterEventListener.on_event (w : World) (st : Option State)
    (data : Option EventData) : Option State × List Cmd × Except PyExn UiAction :=
  match data with
  | none => (st, [], .ok .doNothing)
  | some d =>
    if !d.isEmpty && (dget d "action" == some "toggle-active") then
      let r := handle_toggle_active_action w st (dget d "query")
      (r.1, r.2.1, r.2.2.map .renderList)
    else if !d.isEmpty && (dget d "action" == some "set-strategy") then
      let r := handle_set_strategy_action w st (dget d "query") (dget d "strategy")
      (r.1, r.2.1, r.2.2.map .renderList)
    else (st, [], .ok .doNothing)

/-- `KeywordQueryEventListener.on_event` (lines 154-155): render with the
query text. -/
def KeywordQueryEventListener.on_event (w : World) (st : Option State)
    (argument : Option String) : Option State × List Cmd × Except PyExn UiAction :=
  let r := render w st argument
  (r.1, r.2.1, r.2.2.map .renderList)

/-- Spec-side notion: greedy test that the characters of `q` occur in order,
case-insensitively, inside `t`. -/
def subseqCI : List Char → List Char → Bool
  | [], _ => true
  | _ :: _, [] => false
  | c :: q, d :: t => if ciEq c d then subseqCI q t else subseqCI (c :: q) t

/-- The rank fuzzyfinder sorts a surviving item by: match length, then
match start, then the accessor text, lexicographically. -/
def rankOf (q : String) (it : Item) : Option (Lex (Nat × Lex (Nat × String))) :=
  (fuzzyScore q (keywordAcc it)).map (fun p => toLex (p.1, toLex (p.2, keywordAcc it)))

/-- A world where every invocation hits a missing binary. -/
def wNotFound : World := fun _ => CmdOutcome.notFound

/-- A world where the mutating commands fail with `CalledProcessError`
(message `msg`) and the print command yields `pr`. -/
def wMut (msg : String) (pr : CmdOutcome) : World := fun c =>
  match c with
  | .printAll => pr
  | _ => .failed msg

/-- A world where the mutating commands succeed and the print command
yields `pr`. -/
def wMutOk (pr : CmdOutcome) : World := fun c =>
  match c with
  | .printAll => pr
  | _ => .ok (.json .null)

/-- Concrete snapshot used for the fuzzy-filter counterexample and witness:
toggle keyword "stop", strategy keywords "lazy" and "aa". -/
def stC1 : State :=
  { strategy := Json.str "lazy"
  , active := Json.bool true
  , speed := Json.num "55"
  , temperature := Json.num "45.0"
  , strategies := ["lazy", "aa"] }

/-- Concrete snapshot used for the toggle witness. -/
def stC8 : State :=
  { strategy := Json.str "x"
  , active := Json.bool true
  , speed := Json.num "0"
  , temperature := Json.num "0"
  , strategies := ["x"] }

/-- Concrete snapshot whose active toggle keyword "stop" collides with a
strategy named "stop": on a matching query both suggestions carry the same
full sort key and the sort raises `TypeError`. -/
def stTie : State :=
  { strategy := Json.str "stop"
  , active := Json.bool true
  , speed := Json.num "50"
  , temperature := Json.num "40"
  , strategies := ["stop"] }

/-- A successful print outcome whose JSON object lacks the "strategy"
field. -/
def missingStrategyOutcome : CmdOutcome :=
  .ok (.json (Json.obj [("active", Json.bool true)]))

/-- A successful print outcome whose JSON object lacks the nested
"configuration" field. -/
def missingConfigOutcome : CmdOutcome :=
  .ok (.json (Json.obj
    [("strategy", Json.str "lazy"), ("active", Json.bool true),
     ("speed", Json.num "55"), ("temperature", Json.num "45.0")]))

theorem subseqCI_iff_sublist (q t : List Char) :
    subseqCI q t = true ↔ (q.map lc).Sublist (t.map lc) := by
  induction t generalizing q with
  | nil =>
    cases q with
    | nil => simp [subseqCI]
    | cons c q => simp [subseqCI]
  | cons d t ih =>
    cases q with
    | nil => simp [subseqCI, List.nil_sublist]
    | cons c q =>
      by_cases h : ciEq c d
      · have hcd : lc c = lc d := by simpa [ciEq] using h
        simp only [subseqCI, h, if_true, List.map_cons, hcd]
        rw [ih q, List.cons_sublist_cons]
      · have hcd : lc c ≠ lc d := by simpa [ciEq] using h
        have hstep : subseqCI (c :: q) (d :: t) = subseqCI (c :: q) t := by
          simp [subseqCI, h]
        rw [hstep, ih (c :: q)]
        simp only [List.map_cons]
        constructor
        · intro hs
          exact (List.map_cons lc c q ▸ hs).cons (lc d)
        · intro hs
          rcases List.sublist_cons_iff.mp hs with h1 | ⟨r, hr, _⟩
          · exact h1
          · exact absurd (List.head_eq_of_cons_eq hr) hcd

/-- Dropping the leading pattern character preserves matchability. -/
theorem subseqCI_of_cons {c : Char} {q t : List Char}
    (h : subseqCI (c :: q) t = true) : subseqCI q t = true := by
  rw [subseqCI_iff_sublist] at h ⊢
  exact ((List.sublist_cons_self (lc c) (q.map lc)).trans
    (by simpa using h : (lc c :: q.map lc).Sublist (t.map lc)))

theorem embedLen_isSome (q t : List Char) :
    (embedLen q t).isSome = subseqCI q t := by
  induction t generalizing q with
  | nil => cases q with
    | nil => rfl
    | cons c q => rfl
  | cons d t ih =>
    cases q with
    | nil => rfl
    | cons c q =>
      by_cases h : ciEq c d
      · simp [embedLen, subseqCI, h, ih]
      · simp [embedLen, subseqCI, h, ih]

theorem matchLenAt_isSome (q t : List Char) :
    (matchLenAt q t).isSome =
      (match q, t with
       | [], _ => true
       | _ :: _, [] => false
       | c :: q, d :: t => ciEq c d && subseqCI q t) := by
  cases q with
  | nil => cases t <;> rfl
  | cons c q =>
    cases t with
    | nil => rfl
    | cons d t =>
      by_cases h : ciEq c d
      · simp [matchLenAt, h, embedLen_isSome]
      · simp [matchLenAt, h]

theorem allMatchesFrom_ne_nil_iff (q t : List Char) (i : Nat) :
    allMatchesFrom q t i ≠ [] ↔ subseqCI q t = true := by
  induction t generalizing q i with
  | nil =>
    cases q with
    | nil => simp [allMatchesFrom, matchLenAt, subseqCI]
    | cons c q => simp [allMatchesFrom, matchLenAt, subseqCI]
  | cons d t ih =>
    cases q with
    | nil => simp [allMatchesFrom, matchLenAt, subseqCI]
    | cons c q =>
      simp only [allMatchesFrom]
      cases hm : matchLenAt (c :: q) (d :: t) with
      | some n =>
        have h2 := matchLenAt_isSome (c :: q) (d :: t)
        rw [hm] at h2
        have hb : (ciEq c d && subseqCI q t) = true := by
          simpa using h2.symm
        have hc : ciEq c d = true := (Bool.and_eq_true_iff.mp hb).1
        have hs : subseqCI q t = true := (Bool.and_eq_true_iff.mp hb).2
        constructor
        · intro _
          simp [subseqCI, hc, hs]
        · intro _
          simp
      | none =>
        have h2 := matchLenAt_isSome (c :: q) (d :: t)
        rw [hm] at h2
        have hb : (ciEq c d && subseqCI q t) = false := by
          simpa using h2.symm
        simp only [List.nil_append]
        rw [ih]
        by_cases hc : ciEq c d
        · have hs : subseqCI q t = false := by simpa [hc] using hb
          constructor
          · intro h1
            exact absurd (subseqCI_of_cons h1) (by simp [hs])
          · intro h1
            rw [subseqCI, if_pos hc] at h1
            exact absurd h1 (by simp [hs])
        · rw [subseqCI, if_neg hc]

theorem fuzzyScore_isSome_iff (q s : String) :
    (fuzzyScore q s).isSome = subseqCI q.toList s.toList := by
  simp only [String.toList]
  unfold fuzzyScore
  cases hl : allMatchesFrom q.data s.data 0 with
  | nil =>
    have hfalse : subseqCI q.data s.data = false := by
      rw [← Bool.not_eq_true, ← allMatchesFrom_ne_nil_iff q.data s.data 0]
      simp [hl]
    simp [bestMatch, hl, hfalse]
  | cons m ms =>
    have htrue : subseqCI q.data s.data = true := by
      rw [← allMatchesFrom_ne_nil_iff q.data s.data 0]
      simp [hl]
    simp [bestMatch, hl, htrue]

theorem filterMap_map_proj {α : Type} (q : String) (acc : α → String) (items : List α) :
    ((items.filterMap
        (fun it => (fuzzyScore q (acc it)).map (fun p => (p.1, p.2, acc it, it)))).map
      (fun s : Nat × Nat × String × α => s.2.2.2))
    = items.filter (fun it => (fuzzyScore q (acc it)).isSome) := by
  induction items with
  | nil => rfl
  | cons it its ih =>
    cases hsc : fuzzyScore q (acc it) with
    | none => simp [List.filterMap_cons, hsc, List.filter_cons, ih]
    | some p => simp [List.filterMap_cons, hsc, List.filter_cons, ih]

theorem fuzzyfinder_perm {α : Type} (q : String) (items : List α) (acc : α → String)
    {l : List α} (h : fuzzyfinder q items acc = .ok l) :
    l.Perm (items.filter (fun it => (fuzzyScore q (acc it)).isSome)) := by
  simp only [fuzzyfinder] at h
  by_cases ht : hasKeyTie (fuzzySuggestions q items acc)
  · rw [if_pos ht] at h
    exact absurd h (by simp)
  · rw [if_neg ht] at h
    injection h with h
    subst h
    unfold fuzzySuggestions
    refine ((List.perm_insertionSort sugLE _).map _).trans ?_
    rw [filterMap_map_proj]

theorem mem_fuzzySuggestions {α : Type} {q : String} {items : List α} {acc : α → String}
    {s : Nat × Nat × String × α} (hs : s ∈ fuzzySuggestions q items acc) :
    fuzzyScore q (acc s.2.2.2) = some (s.1, s.2.1) ∧ s.2.2.1 = acc s.2.2.2 := by
  unfold fuzzySuggestions at hs
  rcases List.mem_filterMap.mp hs with ⟨it, _, hmap⟩
  rcases Option.map_eq_some'.mp hmap with ⟨p, hp, hs2⟩
  cases p with
  | mk l st => subst hs2; exact ⟨hp, rfl⟩

theorem fuzzyfinder_sorted_rank (q : String) (items : List Item)
    {l : List Item} (h : fuzzyfinder q items keywordAcc = .ok l) :
    l.Pairwise
      (fun a b => ∀ ka ∈ rankOf q a, ∀ kb ∈ rankOf q b, ka ≤ kb) := by
  simp only [fuzzyfinder] at h
  by_cases ht : hasKeyTie (fuzzySuggestions q items keywordAcc)
  · rw [if_pos ht] at h
    exact absurd h (by simp)
  · rw [if_neg ht] at h
    injection h with h
    subst h
    rw [List.pairwise_map]
    have hsorted :
        (List.insertionSort sugLE (fuzzySuggestions q items keywordAcc)).Pairwise sugLE :=
      List.sorted_insertionSort sugLE _
    refine hsorted.imp_of_mem (fun {s1 s2} h1 h2 hle => ?_)
    intro ka hka kb hkb
    have m1 := mem_fuzzySuggestions ((List.mem_insertionSort sugLE).mp h1)
    have m2 := mem_fuzzySuggestions ((List.mem_insertionSort sugLE).mp h2)
    have r1 : rankOf q s1.2.2.2 = some (sugKey s1) := by
      unfold rankOf sugKey
      rw [m1.1, ← m1.2]
      rfl
    have r2 : rankOf q s2.2.2.2 = some (sugKey s2) := by
      unfold rankOf sugKey
      rw [m2.1, ← m2.2]
      rfl
    rw [r1] at hka
    rw [r2] at hkb
    cases hka
    cases hkb
    exact hle

/-- Two strings differing on an initial segment differ. -/
theorem ne_of_data_take_ne {s t : String} (n : Nat)
    (h : s.data.take n ≠ t.data.take n) : s ≠ t :=
  fun he => h (by rw [he])

/-- C2: the spec requires a missing expected JSON field to surface as a
`MalformedOutput`-style parse error, but `refresh_state` only catches
`CalledProcessError`, `JSONDecodeError` and `FileNotFoundError`: on
well-formed JSON lacking "strategy" (or the nested "configuration" chain)
the dict subscript raises an uncaught `KeyError`, which escapes instead of
becoming an error message. -/
theorem C2_missing_field_crashes :
    refresh_state missingStrategyOutcome = .crash (.keyError "strategy")
    ∧ (∀ m : String, refresh_state missingStrategyOutcome ≠ .err m)
    ∧ refresh_state missingConfigOutcome = .crash (.keyError "configuration") := by
  refine ⟨rfl, ?_, rfl⟩
  intro m h
  rw [show refresh_state missingStrategyOutcome
      = .crash (.keyError "strategy") from rfl] at h
  exact RefreshOutcome.noConfusion h

/-- C3 (amended): with no snapshot held, `render` does not produce a
dedicated "not ready" entry; it performs a refresh and then either renders
the freshly fetched candidate list, renders a single error entry whose
selection copies the error text, or propagates an escaped exception — the
cached snapshot staying absent on failure. -/
theorem C3_render_no_snapshot (w : World) (q : Option String) :
    render w none q =
      match refresh_state (w .printAll) with
      | .ok s => (some s, [.printAll], render_items s q)
      | .err m => (none, [.printAll], .ok (render_error m))
      | .crash e => (none, [.printAll], .error e) := by
  cases h : refresh_state (w .printAll) <;>
    simp [render, refresh_and_render, h]

/-- C3 counterexample: with no snapshot and a missing binary, `render`
returns the error entry — named "An unexpected error occurred", not a
"not ready" placeholder — and selecting it dispatches a copy-to-clipboard
action rather than doing nothing. -/
theorem C3_counterexample :
    (render wNotFound none none).2.2 = Except.ok (render_error
      "fw-fanctrl command not found. Please ensure it's installed and in PATH.")
    ∧ (render_error
        "fw-fanctrl command not found. Please ensure it's installed and in PATH.").map
          (fun it => it.name) = ["An unexpected error occurred"]
    ∧ (render_error
        "fw-fanctrl command not found. Please ensure it's installed and in PATH.").map
          (fun it => it.on_enter)
        = [ItemAction.copy
            "fw-fanctrl command not found. Please ensure it's installed and in PATH."] :=
  ⟨rfl, rfl, rfl⟩

/-- C4: with a snapshot held and an absent or empty query, `render` returns
the unfiltered candidate list — the toggle entry first, then one entry per
strategy in snapshot order — which has N+1 entries for N strategies. -/
theorem C4_unfiltered_count (w : World) (st : State) :
    render w (some st) none
      = (some st, [], .ok (toggleItem st none :: st.strategies.map (strategyItem st none)))
    ∧ render w (some st) (some "")
      = (some st, [],
          .ok (toggleItem st (some "") :: st.strategies.map (strategyItem st (some ""))))
    ∧ (render_items st none).map List.length = Except.ok (st.strategies.length + 1)
    ∧ (render_items st (some "")).map List.length = Except.ok (st.strategies.length + 1) := by
  refine ⟨rfl, rfl, ?_, ?_⟩ <;> simp [render_items, candidates, Except.map]

/-- C5: each failing refresh is classified by its cause — non-zero exit
yields the command-failed message carrying the process error text, bad JSON
yields the parse-failure message, a missing binary yields the
not-installed message — the three messages are pairwise distinct, and in
every case the cached snapshot is left untouched. -/
theorem C5_refresh_error_kinds (st : Option State) (msg emsg : String) :
    refreshEff (fun _ => .failed msg) st
      = (st, [.printAll], .ok (some ("fw-fanctrl command failed: " ++ msg)))
    ∧ refreshEff (fun _ => .ok (.decodeError emsg)) st
      = (st, [.printAll], .ok (some ("Failed to parse fw-fanctrl output: " ++ emsg)))
    ∧ refreshEff (fun _ => .notFound) st
      = (st, [.printAll],
          .ok (some "fw-fanctrl command not found. Please ensure it's installed and in PATH."))
    ∧ "fw-fanctrl command failed: " ++ msg ≠ "Failed to parse fw-fanctrl output: " ++ emsg
    ∧ "fw-fanctrl command failed: " ++ msg
        ≠ "fw-fanctrl command not found. Please ensure it's installed and in PATH."
    ∧ "Failed to parse fw-fanctrl output: " ++ emsg
        ≠ "fw-fanctrl command not found. Please ensure it's installed and in PATH." := by
  refine ⟨rfl, rfl, rfl, ?_, ?_, ?_⟩
  · refine ne_of_data_take_ne 1 ?_
    rw [String.data_append, String.data_append,
      List.take_append_of_le_length (by decide),
      List.take_append_of_le_length (by decide)]
    decide
  · refine ne_of_data_take_ne 20 ?_
    rw [String.data_append, List.take_append_of_le_length (by decide)]
    decide
  · refine ne_of_data_take_ne 1 ?_
    rw [String.data_append, List.take_append_of_le_length (by decide)]
    decide

/-- C6: with a snapshot held, when the mutating command of a toggle or
set-strategy action fails with a non-zero exit code, the handler renders
the single error entry (whose selection copies the full error text)
instead of silently re-rendering stale state. -/
theorem C6_mutate_failure_renders_error (st : State) (q : Option String)
    (msg : String) (pr : CmdOutcome) (strat : String) :
    handle_toggle_active_action (wMut msg pr) (some st) q
      = (some st, [if st.active.truthy then Cmd.pause else Cmd.resume],
          .ok (render_error msg))
    ∧ handle_set_strategy_action (wMut msg pr) (some st) q (some strat)
      = (some st, [.use strat], .ok (render_error msg))
    ∧ render_error msg
      = [{ icon := "images/fw-fanctrl.png"
         , name := "An unexpected error occurred"
         , description := some "Press enter to copy to clipboard, good luck o7"
         , on_enter := .copy msg
         , keyword := none }] := by
  refine ⟨?_, rfl, rfl⟩
  by_cases h : st.active.truthy <;>
    simp [handle_toggle_active_action, wMut, h]

/-- C7: with a snapshot held, when the mutating command of a toggle or
set-strategy action succeeds, the handler performs a fresh fetch
(`printAll` follows the mutating command in the trace) and re-renders with
the very query string it was given. -/
theorem C7_mutate_success_refetches (st : State) (q : Option String)
    (pr : CmdOutcome) (strat : String) :
    handle_toggle_active_action (wMutOk pr) (some st) q
      = ((refresh_and_render (wMutOk pr) (some st) q).1,
         (if st.active.truthy then Cmd.pause else Cmd.resume)
           :: (refresh_and_render (wMutOk pr) (some st) q).2.1,
         (refresh_and_render (wMutOk pr) (some st) q).2.2)
    ∧ handle_set_strategy_action (wMutOk pr) (some st) q (some strat)
      = ((refresh_and_render (wMutOk pr) (some st) q).1,
         .use strat :: (refresh_and_render (wMutOk pr) (some st) q).2.1,
         (refresh_and_render (wMutOk pr) (some st) q).2.2)
    ∧ refresh_and_render (wMutOk pr) (some st) q
      = (match refresh_state pr with
         | .ok s => (some s, [.printAll], render_items s q)
         | .err m => (some st, [.printAll], .ok (render_error m))
         | .crash e => (some st, [.printAll], .error e)) := by
  refine ⟨?_, ?_, ?_⟩
  · by_cases h : st.active.truthy <;>
      simp [handle_toggle_active_action, wMutOk, h]
  · rfl
  · cases h : refresh_state pr <;> simp [refresh_and_render, wMutOk, h]

/-- C8: with a snapshot held, the first external command a toggle action
attempts is `pause` when the snapshot's active flag is true and `resume`
when it is false, and the rendered toggle entry's keyword is "stop" when
active is true and "start" when it is false. -/
theorem C8_toggle_pause_resume (w : World) (st : State) (q : Option String)
    (b : Bool) (h : st.active = Json.bool b) :
    ((handle_toggle_active_action w (some st) q).2.1).head?
      = some (if b then Cmd.pause else Cmd.resume)
    ∧ (toggleItem st q).keyword = some (if b then "stop" else "start") := by
  have ht : st.active.truthy = b := by rw [h]; rfl
  constructor
  · simp only [handle_toggle_active_action, ht]
    cases w (if b then Cmd.pause else Cmd.resume) <;> simp
  · simp [toggleItem, ht]

/-- C8 witness. -/
theorem C8_witness :
    stC8.active = Json.bool true
    ∧ (((handle_toggle_active_action wNotFound (some stC8) none).2.1).head?
        = some (if true then Cmd.pause else Cmd.resume)
      ∧ (toggleItem stC8 none).keyword = some (if true then "stop" else "start")) :=
  ⟨rfl, C8_toggle_pause_resume wNotFound stC8 none true rfl⟩

/-- C9: with no cached snapshot, both action handlers only refresh and
re-render — the mutating `pause`/`resume`/`use` commands are never
attempted, whatever the fetch outcome — so the selected action is silently
not performed. -/
theorem C9_no_mutate_without_snapshot (w : World) (q : Option String)
    (strat : Option String) :
    handle_toggle_active_action w none q = refresh_and_render w none q
    ∧ handle_set_strategy_action w none q strat = refresh_and_render w none q
    ∧ (refresh_and_render w none q).2.1 = [.printAll]
    ∧ Cmd.pause ∉ (handle_toggle_active_action w none q).2.1
    ∧ Cmd.resume ∉ (handle_toggle_active_action w none q).2.1
    ∧ ∀ s2 : String, Cmd.use s2 ∉ (handle_set_strategy_action w none q strat).2.1 := by
  have h3 : (refresh_and_render w none q).2.1 = [.printAll] := by
    unfold refresh_and_render
    cases refresh_state (w .printAll) <;> rfl
  refine ⟨rfl, rfl, h3, ?_, ?_, ?_⟩ <;>
    simp [handle_toggle_active_action, handle_set_strategy_action, h3]

/-- C10: a selection event whose payload is absent, empty, or carries an
`action` value other than "toggle-active"/"set-strategy" yields a
do-nothing action, attempts no external command, and leaves the cached
snapshot unchanged. -/
theorem C10_unknown_action_noop (w : World) (st : Option State)
    (d : Option EventData)
    (h : match d with
         | none => True
         | some l => l = []
             ∨ (dget l "action" ≠ some "toggle-active"
                ∧ dget l "action" ≠ some "set-strategy")) :
    ItemEnterEventListener.on_event w st d = (st, [], .ok .doNothing) := by
  cases d with
  | none => rfl
  | some l =>
    rcases h with h | ⟨h1, h2⟩
    · subst h; rfl
    · simp [ItemEnterEventListener.on_event, h1, h2]

/-- C10 witness. -/
theorem C10_witness :
    (match (some [("action", (some "bogus" : Option String))] : Option EventData) with
     | none => True
     | some l => l = []
         ∨ (dget l "action" ≠ some "toggle-active"
            ∧ dget l "action" ≠ some "set-strategy"))
    ∧ ItemEnterEventListener.on_event wNotFound none
        (some [("action", (some "bogus" : Option String))])
      = (none, [], .ok .doNothing) :=
  ⟨by decide,
   C10_unknown_action_noop wNotFound none
     (some [("action", (some "bogus" : Option String))]) (by decide)⟩

/-- C1 (amended): with a snapshot held, a non-empty query, and query and
candidate keywords all ASCII (where `Char.toLower` models `re.IGNORECASE`
exactly): the greedy matching test `subseqCI` coincides with containment
of the lowercased query characters as an ordered sublist; when two
fuzzy-surviving suggestions share the full `(length, start, keyword)` sort
key — which happens exactly when two surviving candidates share a keyword,
e.g. a strategy named "stop" beside the active toggle entry — the render
raises the `TypeError` from `sorted` comparing the item objects; otherwise
the rendered entries are exactly (as a multiset) those candidates whose
keyword contains the query's characters as a case-insensitive ordered
subsequence, ordered by fuzzyfinder's rank (match length, then match
position, then keyword), not by the unfiltered candidate order. -/
theorem C1_render_fuzzy_filter (st : State) (q : String) (h : q ≠ "")
    (_hq : asciiStr q = true)
    (_hk : ∀ it ∈ candidates st (some q), asciiStr (keywordAcc it) = true) :
    (∀ s : String, subseqCI q.toList s.toList = true ↔
        (q.toList.map lc).Sublist (s.toList.map lc))
    ∧ (if hasKeyTie (fuzzySuggestions q (candidates st (some q)) keywordAcc)
       then render_items st (some q) = .error (.typeError sortedTypeErrorMsg)
       else ∃ l, render_items st (some q) = .ok l
          ∧ l.Perm ((candidates st (some q)).filter
              (fun it => subseqCI q.toList (keywordAcc it).toList))
          ∧ l.Pairwise
              (fun a b => ∀ ka ∈ rankOf q a, ∀ kb ∈ rankOf q b, ka ≤ kb)) := by
  have hr : render_items st (some q)
      = fuzzyfinder q (candidates st (some q)) keywordAcc := by
    simp [render_items, h]
  refine ⟨fun s => subseqCI_iff_sublist _ _, ?_⟩
  by_cases ht : hasKeyTie (fuzzySuggestions q (candidates st (some q)) keywordAcc)
  · rw [if_pos ht, hr]
    simp only [fuzzyfinder, if_pos ht]
  · rw [if_neg ht, hr]
    have hok : fuzzyfinder q (candidates st (some q)) keywordAcc
        = .ok ((List.insertionSort sugLE
            (fuzzySuggestions q (candidates st (some q)) keywordAcc)).map
              (fun s => s.2.2.2)) := by
      simp only [fuzzyfinder, if_neg ht]
    refine ⟨_, hok, ?_, ?_⟩
    · refine (fuzzyfinder_perm q _ keywordAcc hok).trans ?_
      rw [List.filter_congr
        (fun it _ => fuzzyScore_isSome_iff q (keywordAcc it))]
    · exact fuzzyfinder_sorted_rank q _ hok

/-- C1 witness. -/
theorem C1_witness :
    (("a" : String) ≠ ""
      ∧ asciiStr "a" = true
      ∧ (∀ it ∈ candidates stC1 (some "a"), asciiStr (keywordAcc it) = true))
    ∧ ((∀ s : String, subseqCI "a".toList s.toList = true ↔
          ("a".toList.map lc).Sublist (s.toList.map lc))
      ∧ (if hasKeyTie (fuzzySuggestions "a" (candidates stC1 (some "a")) keywordAcc)
         then render_items stC1 (some "a") = .error (.typeError sortedTypeErrorMsg)
         else ∃ l, render_items stC1 (some "a") = .ok l
            ∧ l.Perm ((candidates stC1 (some "a")).filter
                (fun it => subseqCI "a".toList (keywordAcc it).toList))
            ∧ l.Pairwise
                (fun a b => ∀ ka ∈ rankOf "a" a, ∀ kb ∈ rankOf "a" b, ka ≤ kb))) :=
  ⟨⟨by decide, by decide, by decide⟩,
   C1_render_fuzzy_filter stC1 "a" (by decide) (by decide) (by decide)⟩

/-- C1 counterexample to the original claim: for the snapshot `stC1`
(candidate keywords "stop", "lazy", "aa") and query "a", the filtered
render is ["aa", "lazy"] — "aa" has the earlier best match, so fuzzyfinder
ranks it first — while preserving relative order from the unfiltered list
would require ["lazy", "aa"]: the result's keywords are not a sublist of
the candidates' keywords. Moreover on the snapshot `stTie`, whose strategy
"stop" collides with the active toggle keyword, query "st" does not return
an entry list at all: the sort raises `TypeError`. -/
theorem C1_counterexample :
    (render_items stC1 (some "a")).map (fun l => l.map (fun it => it.keyword))
      = Except.ok [some "aa", some "lazy"]
    ∧ (candidates stC1 (some "a")).map (fun it => it.keyword)
      = [some "stop", some "lazy", some "aa"]
    ∧ ¬ (([some "aa", some "lazy"] : List (Option String)).Sublist
        [some "stop", some "lazy", some "aa"])
    ∧ render_items stTie (some "st")
      = Except.error (.typeError sortedTypeErrorMsg) :=
  ⟨rfl, rfl, by decide, rfl⟩
